import Mathlib

/-
Shallow embedding of the pharmaceutical inventory application.

Modelled components (each mirrors one request handler of the source):
* seller order-item workflow: `updateOrderItemStatus`, `approveAllItems`
  (single-item status/quantity update and bulk approve-all with per-item
  stock checks, both transaction-scoped);
* daily dispensing recorder: `recordDailyDispensing` (upsert keyed by
  drug/date/category, coupled to a stock adjustment);
* chatbot SQL validation: `keywordRejected`, `startsWithSelect`,
  `validateSQLColumns`, `checkGeneratedSQL` (the static safety checks the
  controller applies to a generated SQL string before executing it).

Database tables are embedded as lists of rows; a transaction is embedded by
returning either the updated state (COMMIT) or the original state (ROLLBACK).
JavaScript truthiness of optional request fields (`if (quantity)`,
`category || 'OPD'`) is embedded explicitly: the number 0 and the empty
string are falsy.
-/

/-- A row of the `drugs` table (the fields the modelled handlers read). -/
structure Drug where
  id : Nat
  name : String
  stock : Int
  createdBy : Nat
deriving DecidableEq

/-- A row of the `order_items` table. `status` is the raw string stored by the
server (`pending`, `approved`, `rejected`, `shipped`). -/
structure OrderItem where
  id : Nat
  orderId : Nat
  drugId : Option Nat
  quantity : Int
  status : String
  sellerId : Nat
deriving DecidableEq

/-- A row of the `orders` table (only the column the approval workflow reads). -/
structure Order where
  id : Nat
  recipientId : Option Nat
deriving DecidableEq

/-- A row of the `daily_dispensing_summary` table. -/
structure DispensingRecord where
  id : Nat
  drugId : Nat
  quantityDispensed : Int
  dispensingDate : String
  category : String
  notes : Option String
  recordedBy : Nat
deriving DecidableEq

/-- The database state touched by the modelled handlers. -/
structure DB where
  drugs : List Drug
  orders : List Order := []
  orderItems : List OrderItem := []
  dispensing : List DispensingRecord := []
  nextDispensingId : Nat := 1
deriving DecidableEq

/-- JavaScript truthiness of an optional numeric request field: absent and 0
are falsy. -/
def truthyInt : Option Int → Bool
  | some q => q != 0
  | none => false

/-- JavaScript truthiness of an optional string request field: absent and the
empty string are falsy. -/
def truthyStr : Option String → Bool
  | some s => s != ""
  | none => false

/-- `SELECT ... FROM order_items oi ... WHERE oi.id = $1 AND oi.seller_id = $2`
(first matching row). -/
def findItem (db : DB) (orderItemId sellerId : Nat) : Option OrderItem :=
  db.orderItems.find? (fun oi => oi.id == orderItemId && oi.sellerId == sellerId)

/-- The drug's stock as read through a join on `drugs.id` (`none` when the
drug row does not exist). -/
def stockOf (db : DB) (drugId : Nat) : Option Int :=
  (db.drugs.find? (fun d => d.id == drugId)).map (·.stock)

/-- `UPDATE order_items SET quantity = $1 WHERE id = $2`. -/
def setItemQuantity (db : DB) (orderItemId : Nat) (q : Int) : DB :=
  { db with orderItems := db.orderItems.map (fun oi =>
      if oi.id == orderItemId then { oi with quantity := q } else oi) }

/-- `UPDATE order_items SET status = $1 WHERE id = $2`. -/
def setItemStatus (db : DB) (orderItemId : Nat) (s : String) : DB :=
  { db with orderItems := db.orderItems.map (fun oi =>
      if oi.id == orderItemId then { oi with status := s } else oi) }

/-- `UPDATE drugs SET stock = stock - $1 WHERE id = $2`. -/
def deductStock (db : DB) (drugId : Nat) (q : Int) : DB :=
  { db with drugs := db.drugs.map (fun d =>
      if d.id == drugId then { d with stock := d.stock - q } else d) }

/-- `UPDATE drugs SET stock = stock + $1 WHERE id = $2`. -/
def restoreStock (db : DB) (drugId : Nat) (q : Int) : DB :=
  { db with drugs := db.drugs.map (fun d =>
      if d.id == drugId then { d with stock := d.stock + q } else d) }

/-- `const newQuantity = quantity ? parseInt(quantity) : item.original_quantity`. -/
def effectiveQuantity (quantity : Option Int) (item : OrderItem) : Int :=
  if truthyInt quantity then quantity.getD item.quantity else item.quantity

/-- Outcome of the single order-item update handler. -/
inductive UpdateResult where
  | notFound
  | insufficientStock (available requested : Int)
  | ok
deriving DecidableEq

/-- `updateOrderItemStatus` (sellerOrderController): single-item status and/or
quantity update. Returns the handler outcome together with the committed
state (the original state on 404 or rollback). -/
def updateOrderItemStatus (db : DB) (orderItemId sellerId : Nat)
    (status : Option String) (quantity : Option Int) : UpdateResult × DB :=
  match findItem db orderItemId sellerId with
  | none => (UpdateResult.notFound, db)
  | some item =>
    let itemStock : Int :=
      match item.drugId with
      | some did => (stockOf db did).getD 0
      | none => 0
    let newQuantity : Int := effectiveQuantity quantity item
    -- BEGIN
    let db1 : DB :=
      if truthyInt quantity then setItemQuantity db orderItemId newQuantity else db
    match status with
    | some s =>
      if s ≠ "" then
        let db2 : DB := setItemStatus db1 orderItemId s
        match item.drugId with
        | some did =>
          if s = "approved" ∧ item.status ≠ "approved" then
            if itemStock < newQuantity then
              (UpdateResult.insufficientStock itemStock newQuantity, db)  -- ROLLBACK
            else
              (UpdateResult.ok, deductStock db2 did newQuantity)
          else if s = "rejected" ∧ item.status = "approved" then
            (UpdateResult.ok, restoreStock db2 did item.quantity)
          else
            (UpdateResult.ok, db2)
        | none => (UpdateResult.ok, db2)
      else (UpdateResult.ok, db1)
    | none => (UpdateResult.ok, db1)

/-- A row returned by the bulk-approval `SELECT ... FOR UPDATE` (snapshot of
the item joined with its drug, taken once before the loop). -/
structure PendingRow where
  id : Nat
  drugId : Nat
  quantity : Int
  stock : Int
  drugName : String
deriving DecidableEq

/-- `SELECT recipient_id FROM orders WHERE id = $1`. -/
def recipientOf (db : DB) (orderId : Nat) : Option Nat :=
  (db.orders.find? (fun o => o.id == orderId)).bind (·.recipientId)

/-- The pending items of the order visible to the caller, inner-joined with
their drugs (the bulk-approval row-lock query). -/
def pendingRows (db : DB) (orderId sellerId : Nat) : List PendingRow :=
  db.orderItems.filterMap (fun oi =>
    if oi.orderId == orderId && oi.status == "pending"
        && (oi.sellerId == sellerId || some sellerId == recipientOf db orderId) then
      match oi.drugId with
      | some did =>
        match db.drugs.find? (fun d => d.id == did) with
        | some d => some { id := oi.id, drugId := did, quantity := oi.quantity,
                           stock := d.stock, drugName := d.name }
        | none => none
      | none => none
    else none)

/-- An entry of the bulk-approval `insufficientStockItems` response list. -/
structure InsufficientItem where
  drugName : String
  requested : Int
  available : Int
  reason : String
deriving DecidableEq

/-- The bulk-approval response body. `totalItems` is `none` on the
no-pending-items early return (the field is absent from that response). -/
structure ApproveAllResult where
  approvedCount : Nat
  insufficientStockItems : List InsufficientItem
  totalItems : Option Nat
deriving DecidableEq

/-- The per-item loop of `approveAllItems`: each check compares the snapshot
stock of the row against the requested quantity, while the deduction is
applied to the live state. -/
def approveLoop : List PendingRow → DB → Nat → List InsufficientItem →
    Nat × List InsufficientItem × DB
  | [], db, count, insuff => (count, insuff, db)
  | r :: rest, db, count, insuff =>
    if r.stock ≥ r.quantity then
      let db1 := setItemStatus db r.id "approved"
      let db2 := deductStock db1 r.drugId r.quantity
      approveLoop rest db2 (count + 1) insuff
    else
      approveLoop rest db count
        (insuff ++ [{ drugName := r.drugName, requested := r.quantity,
                      available := r.stock, reason := "Insufficient stock" }])

/-- `approveAllItems` (sellerOrderController): bulk "approve all" for an
order, returning the response body and the committed state. -/
def approveAllItems (db : DB) (orderId sellerId : Nat) : ApproveAllResult × DB :=
  let rows := pendingRows db orderId sellerId
  if rows.isEmpty then
    ({ approvedCount := 0, insufficientStockItems := [], totalItems := none }, db)
  else
    let out := approveLoop rows db 0 []
    ({ approvedCount := out.1, insufficientStockItems := out.2.1,
       totalItems := some rows.length }, out.2.2)

/-- Outcome of the daily dispensing recorder. -/
inductive DispenseResult where
  | dateMismatch
  | notFound
  | insufficientStock (available attempted : Int)
  | insufficientForUpdate (available additionalNeeded : Int)
  | okUpdated
  | okInserted
deriving DecidableEq

/-- `category || 'OPD'`. -/
def dispCategory (category : Option String) : String :=
  if truthyStr category then category.getD "" else "OPD"

/-- `recordDailyDispensing` (dailyDispensingController): upsert of a
per-drug-per-day-per-category dispensing record with coupled stock
adjustment. `currentDate` stands for the server's current date. -/
def recordDailyDispensing (db : DB) (userId : Nat) (currentDate : String)
    (drugId : Nat) (quantityDispensed : Int)
    (dispensingDate : Option String) (category : Option String)
    (notes : Option String) : DispenseResult × DB :=
  let requestedDate : String :=
    if truthyStr dispensingDate then dispensingDate.getD "" else currentDate
  if requestedDate ≠ currentDate then (DispenseResult.dateMismatch, db)
  else
    match db.drugs.find? (fun d => d.id == drugId && d.createdBy == userId) with
    | none => (DispenseResult.notFound, db)
    | some drug =>
      if drug.stock < quantityDispensed then
        (DispenseResult.insufficientStock drug.stock quantityDispensed, db)
      else
        let cat := dispCategory category
        match db.dispensing.find? (fun r =>
            r.drugId == drugId && r.dispensingDate == currentDate && r.category == cat) with
        | some existing =>
          let quantityDifference := quantityDispensed - existing.quantityDispensed
          if drug.stock < quantityDifference then
            (DispenseResult.insufficientForUpdate drug.stock quantityDifference, db)
          else
            let db1 := { db with dispensing := db.dispensing.map (fun r =>
              if r.id == existing.id then
                { r with quantityDispensed := quantityDispensed, notes := notes }
              else r) }
            (DispenseResult.okUpdated, deductStock db1 drugId quantityDifference)
        | none =>
          let newRec : DispensingRecord :=
            { id := db.nextDispensingId, drugId := drugId,
              quantityDispensed := quantityDispensed, dispensingDate := currentDate,
              category := cat, notes := notes, recordedBy := userId }
          let db1 := { db with
            dispensing := db.dispensing ++ [newRec],
            nextDispensingId := db.nextDispensingId + 1 }
          (DispenseResult.okInserted, deductStock db1 drugId quantityDispensed)

/-! ### Chatbot SQL validation (chatbotController) -/

/-- The single-quote character (codepoint 39). -/
def squoteChar : Char := Char.ofNat 39

/-- The double-quote character (codepoint 34). -/
def dquoteChar : Char := Char.ofNat 34

/-- The backslash character (codepoint 92). -/
def backslashChar : Char := Char.ofNat 92

/-- Regex `\w`: ASCII letter, digit or underscore. -/
def isWordChar (c : Char) : Bool := c.isAlpha || c.isDigit || c == '_'

/-- Regex class `[a-z_]` (the scanners run on the lowercased SQL). -/
def isIdentStart (c : Char) : Bool := c.isLower || c == '_'

/-- Regex class `[a-z0-9_."]` of the table-token scanner. -/
def isTableChar (c : Char) : Bool :=
  c.isLower || c.isDigit || c == '_' || c == '.' || c == dquoteChar

/-- Word boundary `\b` to the left of a position, given the preceding
character (`none` at the start of the string). -/
def notWordPrev : Option Char → Bool
  | none => true
  | some c => !isWordChar c

/-- `pat` is a literal leading segment of `l`. -/
def leadMatch : List Char → List Char → Bool
  | [], _ => true
  | _ :: _, [] => false
  | c :: ps, d :: ts => c == d && leadMatch ps ts

/-- JavaScript `String.includes`: `pat` occurs contiguously in `l`. -/
def containsSeq (pat : List Char) : List Char → Bool
  | [] => leadMatch pat []
  | c :: t => leadMatch pat (c :: t) || containsSeq pat t

/-- Uppercase every character (`sql.toUpperCase()` on ASCII SQL). -/
def upperChars (l : List Char) : List Char := l.map Char.toUpper

/-- `forbiddenKeywords` of `generateValidatedSQL`. -/
def forbiddenKeywords : List String :=
  ["INSERT", "UPDATE", "DELETE", "DROP", "ALTER", "CREATE", "TRUNCATE"]

/-- `forbiddenKeywords.some(keyword => sql.toUpperCase().includes(keyword))`:
the security check that throws `Unsafe query detected`. It is a substring
test, not a bare-keyword test. -/
def keywordRejected (sql : String) : Bool :=
  forbiddenKeywords.any (fun kw => containsSeq kw.data (upperChars sql.data))

/-- `sql.toUpperCase().startsWith('SELECT')`. -/
def startsWithSelect (sql : String) : Bool :=
  leadMatch "SELECT".data (upperChars sql.data)

/-- Body of a quoted literal for regex `'(?:\\'|[^'])*'` (and its
double-quote analogue): returns how many characters after the opening quote
the match consumes (body plus closing quote), or `none` when unterminated.
The escaped-quote alternative is preferred, with backtracking to the
single-character alternative. -/
def quoteBody (q : Char) : Nat → List Char → Option Nat
  | 0, _ => none
  | _ + 1, [] => none
  | fuel + 1, c :: rest =>
    if c == q then some 1
    else if c == backslashChar then
      match rest with
      | c2 :: rest2 =>
        if c2 == q then
          match quoteBody q fuel rest2 with
          | some n => some (n + 2)
          | none => (quoteBody q fuel rest).map (· + 1)
        else (quoteBody q fuel rest).map (· + 1)
      | [] => none
    else (quoteBody q fuel rest).map (· + 1)

/-- One `replace(/q(?:\\q|[^q])*q/g, ' ')` pass: every quoted literal is
replaced by a single space; an unterminated opening quote is left in place. -/
def stripQuotedPass (q : Char) : Nat → List Char → List Char
  | 0, l => l
  | _ + 1, [] => []
  | fuel + 1, c :: rest =>
    if c == q then
      match quoteBody q (rest.length + 1) rest with
      | some n => ' ' :: stripQuotedPass q fuel (rest.drop n)
      | none => c :: stripQuotedPass q fuel rest
    else c :: stripQuotedPass q fuel rest

/-- Lazy search for the closing `$$` of a dollar-quoted block: characters
consumed up to and including the first `$$`. -/
def dollarClose : Nat → List Char → Option Nat
  | 0, _ => none
  | _ + 1, [] => none
  | _ + 1, '$' :: '$' :: _ => some 2
  | fuel + 1, _ :: rest => (dollarClose fuel rest).map (· + 1)

/-- `replace(/\$\$[\s\S]*?\$\$/g, ' ')`. -/
def stripDollarPass : Nat → List Char → List Char
  | 0, l => l
  | _ + 1, [] => []
  | fuel + 1, '$' :: '$' :: rest =>
    match dollarClose (rest.length + 1) rest with
    | some n => ' ' :: stripDollarPass fuel (rest.drop n)
    | none => '$' :: stripDollarPass fuel ('$' :: rest)
  | fuel + 1, c :: rest => c :: stripDollarPass fuel rest

/-- Step 1 of `validateSQLColumns`: strip single-quoted, double-quoted and
dollar-quoted literals, in that order. -/
def stripLiterals (l : List Char) : List Char :=
  let a := stripQuotedPass squoteChar (l.length + 1) l
  let b := stripQuotedPass dquoteChar (a.length + 1) a
  stripDollarPass (b.length + 1) b

/-- Maximal run of word characters at the head of the list. -/
def takeWord (l : List Char) : List Char := l.takeWhile isWordChar

/-- The optional alias part `(?:\s+(?:as\s+)?([a-z_][\w]*))?` after a table
token: returns the alias and the number of characters consumed. The
`as`-consuming alternative is tried first; on failure the identifier is
matched directly (so a trailing bare `as` becomes the alias itself). -/
def matchAliasPart (l : List Char) : Option (List Char × Nat) :=
  let ws := l.takeWhile Char.isWhitespace
  if ws.isEmpty then none
  else
    let rest := l.drop ws.length
    let viaAs : Option (List Char × Nat) :=
      if leadMatch "as".data rest then
        let rest2 := rest.drop 2
        let ws2 := rest2.takeWhile Char.isWhitespace
        if ws2.isEmpty then none
        else
          let rest3 := rest2.drop ws2.length
          match rest3.head? with
          | some c =>
            if isIdentStart c then
              let w := takeWord rest3
              some (w, ws.length + 2 + ws2.length + w.length)
            else none
          | none => none
      else none
    match viaAs with
    | some r => some r
    | none =>
      match rest.head? with
      | some c =>
        if isIdentStart c then
          let w := takeWord rest
          some (w, ws.length + w.length)
        else none
      | none => none

/-- One attempted match of
`(?:from|join)\s+([a-z0-9_."]+)(?:\s+(?:as\s+)?([a-z_][\w]*))?` at the head
of the list: table token, optional alias, characters consumed. -/
def matchFromJoin (l : List Char) : Option (List Char × Option (List Char) × Nat) :=
  let tryKw (kw : List Char) : Option (List Char × Option (List Char) × Nat) :=
    if leadMatch kw l then
      let r1 := l.drop kw.length
      let ws := r1.takeWhile Char.isWhitespace
      if ws.isEmpty then none
      else
        let r2 := r1.drop ws.length
        let tbl := r2.takeWhile isTableChar
        if tbl.isEmpty then none
        else
          let r3 := r2.drop tbl.length
          match matchAliasPart r3 with
          | some (al, n) => some (tbl, some al, kw.length + ws.length + tbl.length + n)
          | none => some (tbl, none, kw.length + ws.length + tbl.length)
    else none
  match tryKw "from".data with
  | some r => some r
  | none => tryKw "join".data

/-- Global scan with the table regex (word boundary before `from`/`join`;
matches do not overlap). Returns the (table token, alias) pairs in order. -/
def scanTables : Nat → Option Char → List Char → List (List Char × Option (List Char))
  | 0, _, _ => []
  | _ + 1, _, [] => []
  | fuel + 1, prev, c :: rest =>
    if notWordPrev prev then
      match matchFromJoin (c :: rest) with
      | some (tbl, al, n) =>
        (tbl, al) :: scanTables fuel ((c :: rest).take n).getLast? ((c :: rest).drop n)
      | none => scanTables fuel (some c) rest
    else scanTables fuel (some c) rest

/-- `tableToken.replace(/^"+|"+$/g, '')`. -/
def stripEdgeQuotes (l : List Char) : List Char :=
  ((l.dropWhile (· == dquoteChar)).reverse.dropWhile (· == dquoteChar)).reverse

/-- `tableToken.split('.').pop()`: the segment after the last dot (the whole
token when it has no dot). -/
def afterLastDot (l : List Char) : List Char :=
  (l.reverse.takeWhile (· != '.')).reverse

/-- Assignment `m[k] = v` on a JavaScript object embedded as an association
list: overwrite an existing binding, otherwise append. -/
def mapSet (m : List (String × String)) (k v : String) : List (String × String) :=
  if m.any (fun p => p.1 == k) then m.map (fun p => if p.1 == k then (k, v) else p)
  else m ++ [(k, v)]

/-- Build the alias map: for each table-regex match, bind the alias (when
present) and the table name itself to the table name. -/
def buildAliasMap (ms : List (List Char × Option (List Char))) : List (String × String) :=
  ms.foldl (fun acc pr =>
    let tableName : String := ⟨afterLastDot (stripEdgeQuotes pr.1)⟩
    let acc1 := match pr.2 with
      | some al => mapSet acc ⟨al⟩ tableName
      | none => acc
    mapSet acc1 tableName tableName) []

/-- `aliasMap[k]` as an optional value. -/
def aliasGet (m : List (String × String)) (k : String) : Option String :=
  (m.find? (fun p => p.1 == k)).map (fun p => p.2)

/-- JavaScript truthiness of `aliasMap[k]` (an empty-string value is falsy). -/
def aliasTruthy (m : List (String × String)) (k : String) : Bool :=
  match aliasGet m k with
  | some v => v != ""
  | none => false

/-- `aliasMap[tbl] || tbl`. -/
def mappedTableFor (m : List (String × String)) (tbl : String) : String :=
  match aliasGet m tbl with
  | some v => if v != "" then v else tbl
  | none => tbl

/-- Global scan with `\b([a-z_][\w]*)\.([a-z_][\w]*)\b`: qualified
`alias.column` references, in order. -/
def scanQualified : Nat → Option Char → List Char → List (List Char × List Char)
  | 0, _, _ => []
  | _ + 1, _, [] => []
  | fuel + 1, prev, c :: rest =>
    if notWordPrev prev && isIdentStart c then
      let w1 := takeWord (c :: rest)
      let r1 := (c :: rest).drop w1.length
      match r1.head? with
      | some dot =>
        if dot == '.' then
          let r2 := r1.drop 1
          match r2.head? with
          | some c2 =>
            if isIdentStart c2 then
              let w2 := takeWord r2
              (w1, w2) :: scanQualified fuel w2.getLast? (r2.drop w2.length)
            else scanQualified fuel (some c) rest
          | none => scanQualified fuel (some c) rest
        else scanQualified fuel (some c) rest
      | none => scanQualified fuel (some c) rest
    else scanQualified fuel (some c) rest

/-- Global scan with `\b([a-z_][\w]*)\b`: unqualified tokens with their start
indices. -/
def scanTokens : Nat → Nat → Option Char → List Char → List (Nat × List Char)
  | 0, _, _, _ => []
  | _ + 1, _, _, [] => []
  | fuel + 1, idx, prev, c :: rest =>
    if notWordPrev prev && isIdentStart c then
      let w := takeWord (c :: rest)
      (idx, w) :: scanTokens fuel (idx + w.length) w.getLast? ((c :: rest).drop w.length)
    else scanTokens fuel (idx + 1) (some c) rest

/-- `lowerSql.slice(a, b)` for `a ≤ b` (clipped at the end of the string). -/
def sliceList (l : List Char) (a b : Nat) : List Char := (l.drop a).take (b - a)

/-- Test `/\.[a-z_]/` on a window. -/
def hasDotIdent : List Char → Bool
  | [] => false
  | '.' :: rest =>
    (match rest.head? with
     | some c => isIdentStart c
     | none => false) || hasDotIdent rest
  | _ :: rest => hasDotIdent rest

/-- Test `/\b[a-z_][\w]*\.\b/` on a window: an identifier followed by a dot
that is itself followed by a word character. -/
def hasIdentDot : Option Char → List Char → Bool
  | _, [] => false
  | prev, c :: rest =>
    (if notWordPrev prev && isIdentStart c then
      let w := takeWord (c :: rest)
      let r := (c :: rest).drop w.length
      match r.head?, (r.drop 1).head? with
      | some d, some e => d == '.' && isWordChar e
      | _, _ => false
    else false) || hasIdentDot (some c) rest

/-- The SQL keywords ignored by the unqualified-token check. -/
def sqlKeywords : List String :=
  ["select", "from", "where", "order", "by", "limit", "join", "left", "right",
   "inner", "outer", "on", "and", "or",
   "group", "having", "as", "count", "sum", "avg", "min", "max", "distinct",
   "case", "when", "then", "else", "end",
   "between", "in", "is", "not", "null", "like", "ilike", "exists", "now",
   "interval", "true", "false", "offset",
   "union", "all", "except", "intersect", "limit", "offset"]

/-- The canonical `table.column` allow-list of `validateSQLColumns`. -/
def validColumnsRaw : List String :=
  ["users.id", "users.name", "users.email", "users.password", "users.phone",
   "users.street", "users.city", "users.state", "users.postal_code",
   "users.country", "users.status", "users.registration_date",
   "users.license_number", "users.role", "users.created_by",
   "users.created_at", "users.updated_at",
   "drugs.id", "drugs.drug_type", "drugs.name", "drugs.batch_no",
   "drugs.description", "drugs.stock", "drugs.mfg_date", "drugs.exp_date",
   "drugs.price", "drugs.created_by", "drugs.category", "drugs.created_at",
   "drugs.updated_at",
   "orders.id", "orders.order_no", "orders.user_id", "orders.recipient_id",
   "orders.transaction_type", "orders.notes", "orders.total_amount",
   "orders.created_at", "orders.updated_at",
   "order_items.id", "order_items.order_id", "order_items.drug_id",
   "order_items.custom_name", "order_items.manufacturer_name",
   "order_items.quantity", "order_items.unit_price", "order_items.total_price",
   "order_items.source_type", "order_items.category", "order_items.batch_no",
   "order_items.seller_id", "order_items.status", "order_items.created_at",
   "order_items.updated_at",
   "drug_types.id", "drug_types.type_name", "drug_types.created_at",
   "drug_types.updated_at",
   "drug_names.id", "drug_names.type_id", "drug_names.name",
   "drug_names.created_at", "drug_names.updated_at"]

/-- `.map(c => c.toLowerCase())` applied to the allow-list. -/
def validColumns : List String :=
  validColumnsRaw.map (fun c => ⟨c.data.map Char.toLower⟩)

/-- `validColumns.some(c => c.endsWith('.' + token))`. -/
def endsWithDotToken (col : String) (tok : List Char) : Bool :=
  leadMatch (tok.reverse ++ ['.']) col.data.reverse

/-- Regex `/^\d+$/`. -/
def isAllDigits (l : List Char) : Bool := !l.isEmpty && l.all Char.isDigit

/-- `Set.add` preserving insertion order (the recorded token always equals the
lowercased token, because the case-sensitive `sql.match` lookup of the source
can only ever return the pattern itself and otherwise falls back to it). -/
def addUnique (l : List String) (s : String) : List String :=
  if l.contains s then l else l ++ [s]

/-- `validateSQLColumns` (chatbotController): strips literals, lowercases,
builds the alias map from `FROM`/`JOIN` clauses, then flags every qualified
reference not in the allow-list and every unqualified identifier that is not
a keyword, not adjacent to a dot, not a column-name suffix of the allow-list
and not a known alias/table. -/
def validateSQLColumns (sql : String) : List String :=
  let sqlNoStrings := stripLiterals sql.data
  let lowerSql := sqlNoStrings.map Char.toLower
  let aliasMap := buildAliasMap (scanTables (lowerSql.length + 1) none lowerSql)
  let qualified := scanQualified (lowerSql.length + 1) none lowerSql
  let invalid1 := qualified.foldl (fun acc m =>
    let tbl : String := ⟨m.1⟩
    let col : String := ⟨m.2⟩
    let mappedTable := mappedTableFor aliasMap tbl
    let full := mappedTable ++ "." ++ col
    if validColumns.contains full then acc
    else addUnique acc (tbl ++ "." ++ col)) []
  let tokens := scanTokens (lowerSql.length + 1) 0 none lowerSql
  tokens.foldl (fun acc m =>
    let token : String := ⟨m.2⟩
    if sqlKeywords.contains token then acc
    else if isAllDigits m.2 then acc
    else
      let ahead := sliceList lowerSql (m.1 - 3) (m.1 + m.2.length + 2)
      if hasDotIdent ahead || hasIdentDot none ahead then acc
      else if validColumns.any (fun c => endsWithDotToken c m.2) then acc
      else if aliasTruthy aliasMap token then acc
      else addUnique acc token) invalid1

/-- Outcome of the post-generation validation chain of
`generateValidatedSQL` (everything after the text model returns a string and
before any database execution). -/
inductive SQLCheck where
  | rejectedKeyword
  | rejectedNotSelect
  | rejectedColumns (invalid : List String)
  | accepted
deriving DecidableEq

/-- The validation chain of `generateValidatedSQL`: forbidden-keyword
substring check, `SELECT` prefix check, then column validation. A rejection
makes the function throw, so the generated SQL is discarded (returned as
`null`) before it can reach the database. -/
def checkGeneratedSQL (sql : String) : SQLCheck :=
  if keywordRejected sql then SQLCheck.rejectedKeyword
  else if !startsWithSelect sql then SQLCheck.rejectedNotSelect
  else
    let invalidColumns := validateSQLColumns sql
    if invalidColumns.length > 0 then SQLCheck.rejectedColumns invalidColumns
    else SQLCheck.accepted

/-- Modelled from the spec: the number of occurrences of `kw` in `l` as a
bare keyword, i.e. bounded by word boundaries on both sides (`prev` is the
character before the scan position). This is the spec-side reading of the
keyword rule, used to compare the claimed behaviour with `keywordRejected`. -/
def bareOccursAux (kw : List Char) : Option Char → List Char → Nat
  | _, [] => 0
  | prev, c :: t =>
    (if notWordPrev prev && leadMatch kw (c :: t)
        && notWordPrev ((c :: t).drop kw.length).head? then 1 else 0)
      + bareOccursAux kw (some c) t

/-- Modelled from the spec: bare-keyword occurrence count from the start of
the string. -/
def bareCount (kw : List Char) (l : List Char) : Nat := bareOccursAux kw none l

/-- Modelled from the spec: "Statement is exactly one SELECT". -/
def exactlyOneSelect (sql : String) : Bool :=
  bareCount "SELECT".data (upperChars sql.data) == 1

/-- Modelled from the spec: the statement contains some forbidden keyword as
a bare keyword. -/
def hasBareForbidden (sql : String) : Bool :=
  forbiddenKeywords.any (fun kw => bareCount kw.data (upperChars sql.data) != 0)

/-- C1 failing input: drug 1 has stock 10; order 1 has two pending items,
each requesting 10 units of drug 1. -/
def c1db : DB :=
  { drugs := [⟨1, "Paracetamol", 10, 7⟩],
    orders := [⟨1, none⟩],
    orderItems := [⟨1, 1, some 1, 10, "pending", 7⟩, ⟨2, 1, some 1, 10, "pending", 7⟩] }

/-- C2 counterexample input: item 1 is `rejected`; drug 1 has stock 10. -/
def c2db : DB :=
  { drugs := [⟨1, "Amoxicillin", 10, 7⟩],
    orderItems := [⟨1, 1, some 1, 5, "rejected", 7⟩] }

/-- C3 counterexample input: drug 1 has stock 10; item 1 is `pending` with
quantity 5. -/
def c3db : DB :=
  { drugs := [⟨1, "Ibuprofen", 10, 7⟩],
    orderItems := [⟨1, 1, some 1, 5, "pending", 7⟩] }

/-- C3 counterexample, first call: approve item 1 (deducts 5). -/
def c3db1 : DB := (updateOrderItemStatus c3db 1 7 (some "approved") none).2

/-- C3 counterexample, second call: edit the quantity of item 1 to 7 after
approval (no status change, no stock change). -/
def c3db2 : DB := (updateOrderItemStatus c3db1 1 7 none (some 7)).2

/-- C3 counterexample, third call: reject item 1 (restores the currently
stored quantity 7, not the deducted 5). -/
def c3db3 : DB := (updateOrderItemStatus c3db2 1 7 (some "rejected") none).2

/-- C4 witness input: item 1 (drug 1, qty 10, stock 10) passes, item 2
(drug 2, qty 5, stock 1) fails. -/
def c4db : DB :=
  { drugs := [⟨1, "DrugA", 10, 7⟩, ⟨2, "DrugB", 1, 7⟩],
    orders := [⟨1, none⟩],
    orderItems := [⟨1, 1, some 1, 10, "pending", 7⟩, ⟨2, 1, some 2, 5, "pending", 7⟩] }

/-- C5 counterexample input: drug 1 has stock 0 left after an existing
dispensing record of 10 units for today/OPD. -/
def c5db : DB :=
  { drugs := [⟨1, "Cefixime", 0, 7⟩],
    dispensing := [⟨1, 1, 10, "2026-10-12", "OPD", none, 7⟩],
    nextDispensingId := 2 }

/-- C5 witness input: drug 1 has stock 10 and an existing dispensing record
of 4 units for today/OPD. -/
def c5wdb : DB :=
  { drugs := [⟨1, "Cetirizine", 10, 7⟩],
    dispensing := [⟨1, 1, 4, "2026-10-12", "OPD", none, 7⟩],
    nextDispensingId := 2 }

/-- C6 witness input: drug 1 has stock 3; item 1 is `pending` with quantity 5. -/
def c6db : DB :=
  { drugs := [⟨1, "Metformin", 3, 7⟩],
    orderItems := [⟨1, 1, some 1, 5, "pending", 7⟩] }

/-- C7 failing input: drug 1 has stock 10 and no dispensing record; the
request dispenses the negative quantity -5. -/
def c7db : DB :=
  { drugs := [⟨1, "Omeprazole", 10, 7⟩] }

/-- C10 counterexample input: item 1 has stored quantity 5. -/
def c10db : DB :=
  { drugs := [⟨1, "Aspirin", 10, 7⟩],
    orderItems := [⟨1, 1, some 1, 5, "pending", 7⟩] }

/-- C3 witness input: drug 1 has stock 10; item 1 is `pending` with
quantity 5. -/
def c3wdb : DB :=
  { drugs := [⟨1, "Azithromycin", 10, 7⟩],
    orderItems := [⟨1, 1, some 1, 5, "pending", 7⟩] }

/-- C2 witness input: item 1 is `shipped`. -/
def c2wdb : DB :=
  { drugs := [⟨1, "Dolo", 10, 7⟩],
    orderItems := [⟨1, 1, some 1, 5, "shipped", 7⟩] }

/-- C10 witness input: item 1 has stored quantity 5. -/
def c10wdb : DB :=
  { drugs := [⟨1, "Vitamin", 10, 7⟩],
    orderItems := [⟨1, 1, some 1, 5, "pending", 7⟩] }


/-! ## Shared lemmas about the row-level operations -/

theorem findItem_setItemQuantity (db : DB) (i s : Nat) (q : Int) :
    findItem (setItemQuantity db i q) i s
      = (findItem db i s).map (fun it => { it with quantity := q }) := by
  unfold findItem setItemQuantity
  rw [List.find?_map]
  have hpf : ((fun oi : OrderItem => oi.id == i && oi.sellerId == s) ∘
      fun oi : OrderItem => if oi.id == i then { oi with quantity := q } else oi)
      = fun oi : OrderItem => oi.id == i && oi.sellerId == s := by
    funext a
    by_cases h : a.id = i <;> simp [h]
  rw [hpf]
  cases h : db.orderItems.find? (fun oi => oi.id == i && oi.sellerId == s) with
  | none => rfl
  | some it =>
    have hp := List.find?_some h
    simp only [Bool.and_eq_true, beq_iff_eq] at hp
    simp [hp.1]

theorem findItem_setItemStatus (db : DB) (i s : Nat) (st : String) :
    findItem (setItemStatus db i st) i s
      = (findItem db i s).map (fun it => { it with status := st }) := by
  unfold findItem setItemStatus
  rw [List.find?_map]
  have hpf : ((fun oi : OrderItem => oi.id == i && oi.sellerId == s) ∘
      fun oi : OrderItem => if oi.id == i then { oi with status := st } else oi)
      = fun oi : OrderItem => oi.id == i && oi.sellerId == s := by
    funext a
    by_cases h : a.id = i <;> simp [h]
  rw [hpf]
  cases h : db.orderItems.find? (fun oi => oi.id == i && oi.sellerId == s) with
  | none => rfl
  | some it =>
    have hp := List.find?_some h
    simp only [Bool.and_eq_true, beq_iff_eq] at hp
    simp [hp.1]

theorem findItem_deductStock (db : DB) (d : Nat) (q : Int) (i s : Nat) :
    findItem (deductStock db d q) i s = findItem db i s := rfl

theorem findItem_restoreStock (db : DB) (d : Nat) (q : Int) (i s : Nat) :
    findItem (restoreStock db d q) i s = findItem db i s := rfl

theorem stockOf_setItemQuantity (db : DB) (i : Nat) (q : Int) (d : Nat) :
    stockOf (setItemQuantity db i q) d = stockOf db d := rfl

theorem stockOf_setItemStatus (db : DB) (i : Nat) (st : String) (d : Nat) :
    stockOf (setItemStatus db i st) d = stockOf db d := rfl

theorem stockOf_deductStock (db : DB) (did : Nat) (q : Int) (d : Nat) :
    stockOf (deductStock db did q) d
      = (stockOf db d).map (fun s => if d = did then s - q else s) := by
  unfold stockOf deductStock
  rw [List.find?_map]
  have hpf : ((fun dr : Drug => dr.id == d) ∘
      fun dr : Drug => if dr.id == did then { dr with stock := dr.stock - q } else dr)
      = fun dr : Drug => dr.id == d := by
    funext a
    by_cases h : a.id = did <;> simp [h]
  rw [hpf]
  cases h : db.drugs.find? (fun dr => dr.id == d) with
  | none => rfl
  | some dr =>
    have hp := List.find?_some h
    simp only [beq_iff_eq] at hp
    by_cases hd : d = did
    · simp [hp, hd]
    · have : ¬ dr.id = did := by rw [hp]; exact hd
      simp [this, hd]

theorem stockOf_restoreStock (db : DB) (did : Nat) (q : Int) (d : Nat) :
    stockOf (restoreStock db did q) d
      = (stockOf db d).map (fun s => if d = did then s + q else s) := by
  unfold stockOf restoreStock
  rw [List.find?_map]
  have hpf : ((fun dr : Drug => dr.id == d) ∘
      fun dr : Drug => if dr.id == did then { dr with stock := dr.stock + q } else dr)
      = fun dr : Drug => dr.id == d := by
    funext a
    by_cases h : a.id = did <;> simp [h]
  rw [hpf]
  cases h : db.drugs.find? (fun dr => dr.id == d) with
  | none => rfl
  | some dr =>
    have hp := List.find?_some h
    simp only [beq_iff_eq] at hp
    by_cases hd : d = did
    · simp [hp, hd]
    · have : ¬ dr.id = did := by rw [hp]; exact hd
      simp [this, hd]

/-! ## Claim theorems -/

/-- C1 (code-bug evidence): bulk approve-all checks every item against the
stock snapshot taken before the loop, so an order with two pending items for
the same drug (stock 10, each requesting 10) approves both and drives the
drug's stock to -10, violating the non-negativity invariant. -/
theorem approveAllItems_drives_stock_negative :
    stockOf c1db 1 = some 10 ∧
    (approveAllItems c1db 1 7).1.approvedCount = 2 ∧
    stockOf (approveAllItems c1db 1 7).2 1 = some (-10) := by decide

/-- C2 counterexample: an item whose current status is `rejected` is not
terminal on the server: requesting `approved` on it succeeds, overwrites the
status and deducts stock. -/
theorem update_rejected_item_reapproved :
    (findItem c2db 1 7).map (·.status) = some "rejected" ∧
    stockOf c2db 1 = some 10 ∧
    (updateOrderItemStatus c2db 1 7 (some "approved") none).1 = UpdateResult.ok ∧
    (findItem (updateOrderItemStatus c2db 1 7 (some "approved") none).2 1 7).map (·.status)
      = some "approved" ∧
    stockOf (updateOrderItemStatus c2db 1 7 (some "approved") none).2 1 = some 5 := by
  decide

/-- C3 counterexample: approve an item of quantity 5 (stock 10 → 5), edit its
quantity to 7, then reject it: the restoration adds the edited quantity 7,
leaving stock 12 ≠ the pre-approval value 10. -/
theorem reject_after_quantity_edit_over_restores :
    stockOf c3db 1 = some 10 ∧
    (findItem c3db3 1 7).map (·.status) = some "rejected" ∧
    stockOf c3db3 1 = some 12 ∧
    stockOf c3db3 1 ≠ stockOf c3db 1 := by decide

/-- C5 counterexample: with an existing record of 10 units for today/OPD and
remaining stock 0, re-submitting the identical quantity 10 does not succeed
with delta 0: the initial availability check `stock < quantity` rejects it
with `INSUFFICIENT_STOCK` (the state is left unchanged). -/
theorem resubmit_rejected_when_stock_low :
    (recordDailyDispensing c5db 7 "2026-10-12" 1 10 none none none).1
      = DispenseResult.insufficientStock 0 10 ∧
    (recordDailyDispensing c5db 7 "2026-10-12" 1 10 none none none).2 = c5db := by decide

/-- C7 (code-bug evidence): `recordDailyDispensing` never validates
`quantity_dispensed > 0`: dispensing -5 units of a drug with stock 10
passes the availability check (10 < -5 is false), inserts a summary row with
a negative quantity and increases stock to 15. -/
theorem recordDailyDispensing_accepts_negative_quantity :
    (recordDailyDispensing c7db 7 "2026-10-12" 1 (-5) none none none).1
      = DispenseResult.okInserted ∧
    stockOf (recordDailyDispensing c7db 7 "2026-10-12" 1 (-5) none none none).2 1
      = some 15 ∧
    ((recordDailyDispensing c7db 7 "2026-10-12" 1 (-5) none none none).2.dispensing.map
      (·.quantityDispensed)) = [-5] := by decide

/-- C8 counterexample: `SELECT created_at FROM drugs LIMIT 20` is exactly one
`SELECT` and contains no forbidden keyword as a bare keyword, yet the
substring-based security check rejects it (`created_at` contains `CREATE`). -/
theorem keyword_check_rejects_created_at :
    exactlyOneSelect "SELECT created_at FROM drugs LIMIT 20" = true ∧
    hasBareForbidden "SELECT created_at FROM drugs LIMIT 20" = false ∧
    keywordRejected "SELECT created_at FROM drugs LIMIT 20" = true ∧
    checkGeneratedSQL "SELECT created_at FROM drugs LIMIT 20"
      = SQLCheck.rejectedKeyword := by decide

/-- C9: the three reference inputs of the spec. The column validator accepts
`SELECT d.stock, d.name FROM drugs d WHERE d.id = 1 LIMIT 20`, rejects
`SELECT o.order_id FROM orders o LIMIT 20` flagging exactly `o.order_id`,
and `DROP TABLE drugs` is rejected by the keyword safety check, i.e. before
the generated SQL could reach the database. -/
theorem sql_validator_reference_queries :
    validateSQLColumns "SELECT d.stock, d.name FROM drugs d WHERE d.id = 1 LIMIT 20"
      = [] ∧
    validateSQLColumns "SELECT o.order_id FROM orders o LIMIT 20" = ["o.order_id"] ∧
    checkGeneratedSQL "DROP TABLE drugs" = SQLCheck.rejectedKeyword := by decide

/-- C10 counterexample: a supplied quantity of 0 is falsy in
`quantity ? parseInt(quantity) : ...`, so the server ignores it entirely:
the call succeeds but the stored quantity stays 5 and the state is
unchanged — 0 is not persisted as given. -/
theorem quantity_zero_not_persisted :
    (updateOrderItemStatus c10db 1 7 none (some 0)).1 = UpdateResult.ok ∧
    (findItem (updateOrderItemStatus c10db 1 7 none (some 0)).2 1 7).map (·.quantity)
      = some 5 ∧
    (updateOrderItemStatus c10db 1 7 none (some 0)).2 = c10db := by decide

/-- A bare-keyword occurrence is in particular a substring occurrence. -/
theorem bareOccursAux_pos_containsSeq (kw : List Char) :
    ∀ (prev : Option Char) (l : List Char), bareOccursAux kw prev l ≠ 0 →
      containsSeq kw l = true := by
  intro prev l
  induction l generalizing prev with
  | nil => intro h; exact absurd rfl h
  | cons c t ih =>
    intro h
    unfold bareOccursAux at h
    unfold containsSeq
    by_cases hl : leadMatch kw (c :: t) = true
    · simp [hl]
    · have hl2 : leadMatch kw (c :: t) = false := by
        cases hfl : leadMatch kw (c :: t)
        · rfl
        · exact absurd hfl hl
      rw [hl2] at h
      simp only [Bool.and_false, Bool.false_and, Bool.false_eq_true, if_false,
        Nat.zero_add] at h
      rw [hl2]
      simp only [Bool.false_or]
      exact ih (some c) h

/-- C8 amended: the keyword rule is a substring check on the uppercased
statement, so it rejects every statement containing a forbidden keyword as a
bare keyword (and, as the counterexample shows, also statements where the
keyword occurs only inside a longer identifier such as `created_at`). -/
theorem bare_forbidden_implies_rejected (sql : String)
    (h : hasBareForbidden sql = true) : keywordRejected sql = true := by
  unfold hasBareForbidden at h
  unfold keywordRejected
  rw [List.any_eq_true] at h ⊢
  obtain ⟨kw, hkw, hc⟩ := h
  refine ⟨kw, hkw, ?_⟩
  simp only [bne_iff_ne, ne_eq] at hc
  exact bareOccursAux_pos_containsSeq kw.data none (upperChars sql.data) hc

/-- C8 amended, witness: `DELETE FROM drugs` contains `DELETE` as a bare
keyword and is rejected by the security check. -/
theorem bare_forbidden_implies_rejected_witness :
    hasBareForbidden "DELETE FROM drugs" = true ∧
    keywordRejected "DELETE FROM drugs" = true :=
  ⟨by decide, bare_forbidden_implies_rejected "DELETE FROM drugs" (by decide)⟩

/-- C10 amended: for every supplied truthy (non-zero) quantity, the server
performs no quantity validation and persists the value as given on the
order-item row — including negative values; a supplied 0 is falsy and is
ignored (the stored quantity is kept, as the counterexample shows). -/
theorem supplied_nonzero_quantity_persisted (db : DB) (i s : Nat) (q : Int)
    (item : OrderItem) (h1 : findItem db i s = some item) (hq : q ≠ 0) :
    (updateOrderItemStatus db i s none (some q)).1 = UpdateResult.ok ∧
    (findItem (updateOrderItemStatus db i s none (some q)).2 i s).map (·.quantity)
      = some q := by
  have ht : truthyInt (some q) = true := by
    simp [truthyInt, bne_iff_ne, hq]
  have heff : effectiveQuantity (some q) item = q := by
    simp [effectiveQuantity, ht]
  simp only [updateOrderItemStatus, h1, ht, if_true, heff]
  constructor
  · trivial
  · rw [findItem_setItemQuantity, h1]
    rfl

/-- C10 amended, witness: a supplied quantity of -3 is persisted as given. -/
theorem supplied_nonzero_quantity_persisted_witness :
    (updateOrderItemStatus c10wdb 1 7 none (some (-3))).1 = UpdateResult.ok ∧
    (findItem (updateOrderItemStatus c10wdb 1 7 none (some (-3))).2 1 7).map (·.quantity)
      = some (-3) :=
  supplied_nonzero_quantity_persisted c10wdb 1 7 (-3) ⟨1, 1, some 1, 5, "pending", 7⟩
    (by decide) (by decide)

/-- C6: when a status change to `approved` is requested on an item that is
not currently approved and the drug's stock is smaller than the effective
quantity, the call returns `INSUFFICIENT_STOCK` carrying the available and
requested counts, and the transaction rolls back: the returned state is the
original one (no status, quantity or stock mutation persists). -/
theorem update_insufficient_no_mutation (db : DB) (i s did : Nat)
    (optQty : Option Int) (item : OrderItem) (st : Int)
    (h1 : findItem db i s = some item)
    (h2 : item.drugId = some did)
    (h3 : stockOf db did = some st)
    (h4 : item.status ≠ "approved")
    (h5 : st < effectiveQuantity optQty item) :
    updateOrderItemStatus db i s (some "approved") optQty
      = (UpdateResult.insufficientStock st (effectiveQuantity optQty item), db) := by
  simp only [updateOrderItemStatus, h1, h2, h3, Option.getD_some]
  rw [if_pos (by decide : ("approved" : String) ≠ "")]
  rw [if_pos ⟨trivial, h4⟩]
  rw [if_pos h5]

/-- C6 witness: drug stock 3, pending item requesting 5: the call returns
`INSUFFICIENT_STOCK 3 5` and the state is unchanged. -/
theorem update_insufficient_no_mutation_witness :
    updateOrderItemStatus c6db 1 7 (some "approved") none
      = (UpdateResult.insufficientStock 3
          (effectiveQuantity none ⟨1, 1, some 1, 5, "pending", 7⟩), c6db) :=
  update_insufficient_no_mutation c6db 1 7 1 none ⟨1, 1, some 1, 5, "pending", 7⟩ 3
    (by decide) (by decide) (by decide) (by decide) (by decide)

/-- C2 amended: the server enforces no terminal states. A requested status
is applied regardless of the item's current status: whenever an update on an
item currently `rejected` or `shipped` requests status `st` and the call
commits (`ok`), the item's status afterwards is `st`. (Stock is only touched
by the approved/rejected branches; from a terminal status, moving to
`approved` deducts stock again, as the counterexample shows.) -/
theorem update_overrides_terminal_status (db : DB) (i s : Nat) (st : String)
    (optQty : Option Int) (item : OrderItem)
    (h1 : findItem db i s = some item)
    (h2 : item.status = "rejected" ∨ item.status = "shipped")
    (hst : st ≠ "")
    (hok : (updateOrderItemStatus db i s (some st) optQty).1 = UpdateResult.ok) :
    (findItem (updateOrderItemStatus db i s (some st) optQty).2 i s).map (·.status)
      = some st := by
  have hnap : item.status ≠ "approved" := by
    rcases h2 with h | h <;> rw [h] <;> decide
  have hsts : ∀ dbx : DB, findItem dbx i s ≠ none →
      (findItem (setItemStatus dbx i st) i s).map (·.status) = some st := by
    intro dbx hs
    rw [findItem_setItemStatus]
    cases hfd : findItem dbx i s with
    | none => exact absurd hfd hs
    | some it => rfl
  have hsome : findItem
      (if truthyInt optQty = true then setItemQuantity db i (effectiveQuantity optQty item)
       else db) i s ≠ none := by
    cases htq : truthyInt optQty
    · simp [htq, h1]
    · simp [htq, findItem_setItemQuantity, h1]
  simp only [updateOrderItemStatus, h1] at hok ⊢
  rw [if_pos hst] at hok ⊢
  cases hd : item.drugId with
  | none =>
    simp only [hd] at hok ⊢
    exact hsts _ hsome
  | some did =>
    simp only [hd] at hok ⊢
    by_cases hap : st = "approved"
    · rw [if_pos ⟨hap, hnap⟩] at hok ⊢
      by_cases hlt : ((stockOf db did).getD 0 : Int) < effectiveQuantity optQty item
      · rw [if_pos hlt] at hok
        simp at hok
      · rw [if_neg hlt] at hok ⊢
        rw [findItem_deductStock]
        exact hsts _ hsome
    · rw [if_neg (fun h => hap h.1)] at hok ⊢
      rw [if_neg (fun h => hnap h.2)] at hok ⊢
      exact hsts _ hsome

/-- C2 amended, witness: a `shipped` item updated with requested status
`rejected` ends up `rejected` (the transition out of `shipped` is applied). -/
theorem update_overrides_terminal_status_witness :
    (findItem (updateOrderItemStatus c2wdb 1 7 (some "rejected") none).2 1 7).map (·.status)
      = some "rejected" :=
  update_overrides_terminal_status c2wdb 1 7 "rejected" none
    ⟨1, 1, some 1, 5, "shipped", 7⟩ (by decide) (Or.inr (by decide)) (by decide) (by decide)

/-- C3 amended: the restoration on `approved → rejected` adds back the
quantity stored on the item at the start of the rejection request. When the
rejection immediately follows the approval (no quantity edit in between),
this equals the quantity deducted at approval time — which the approval also
persisted on the row — so the stock returns exactly to its pre-approval
value. (With an intervening quantity edit the restored amount is the edited
quantity, as the counterexample shows.) -/
theorem approve_then_reject_restores_stock (db : DB) (i s did : Nat)
    (optQty : Option Int) (item : OrderItem)
    (h1 : findItem db i s = some item)
    (h2 : item.status ≠ "approved")
    (h3 : item.drugId = some did)
    (hok : (updateOrderItemStatus db i s (some "approved") optQty).1 = UpdateResult.ok) :
    stockOf (updateOrderItemStatus
        (updateOrderItemStatus db i s (some "approved") optQty).2 i s
        (some "rejected") none).2 did
      = stockOf db did := by
  have hlt : ¬ ((stockOf db did).getD 0 < effectiveQuantity optQty item) := by
    intro hlt
    simp only [updateOrderItemStatus, h1, h3] at hok
    rw [if_pos (by decide : ("approved" : String) ≠ "")] at hok
    rw [if_pos ⟨by trivial, h2⟩] at hok
    rw [if_pos hlt] at hok
    simp at hok
  have hcall1 : (updateOrderItemStatus db i s (some "approved") optQty).2
      = deductStock (setItemStatus
          (if truthyInt optQty = true
           then setItemQuantity db i (effectiveQuantity optQty item) else db)
          i "approved") did (effectiveQuantity optQty item) := by
    simp only [updateOrderItemStatus, h1, h3]
    rw [if_pos (by decide : ("approved" : String) ≠ "")]
    rw [if_pos ⟨by trivial, h2⟩]
    rw [if_neg hlt]
  have hitem2 : findItem (updateOrderItemStatus db i s (some "approved") optQty).2 i s
      = some { item with quantity := effectiveQuantity optQty item,
                         status := "approved" } := by
    rw [hcall1, findItem_deductStock, findItem_setItemStatus]
    cases htq : truthyInt optQty
    · have hqe : effectiveQuantity optQty item = item.quantity := by
        unfold effectiveQuantity
        rw [htq]
        simp
      simp only [htq, Bool.false_eq_true, if_false]
      rw [h1, hqe]
      rfl
    · simp only [htq, if_true]
      rw [findItem_setItemQuantity, h1]
      rfl
  set dbA := (updateOrderItemStatus db i s (some "approved") optQty).2 with hdbA
  have hfinal : (updateOrderItemStatus dbA i s (some "rejected") none).2
      = restoreStock (setItemStatus dbA i "rejected") did
          (effectiveQuantity optQty item) := by
    simp only [updateOrderItemStatus, hitem2, h3, truthyInt]
    rw [if_pos (by decide : ("rejected" : String) ≠ "")]
    rw [if_neg (fun h => by exact absurd h.1 (by decide))]
    rw [if_pos ⟨by trivial, by trivial⟩]
    simp
  rw [hfinal, stockOf_restoreStock, stockOf_setItemStatus, hcall1, stockOf_deductStock]
  have hdbq : stockOf (if truthyInt optQty = true
      then setItemQuantity db i (effectiveQuantity optQty item) else db) did
      = stockOf db did := by
    cases htq : truthyInt optQty <;> simp [htq, stockOf_setItemQuantity]
  rw [stockOf_setItemStatus, hdbq]
  cases stockOf db did with
  | none => rfl
  | some v => simp

/-- C3 amended, witness: approve item 1 with a supplied quantity 3
(stock 10 → 7), then reject it immediately: stock returns to 10. -/
theorem approve_then_reject_restores_stock_witness :
    stockOf (updateOrderItemStatus
        (updateOrderItemStatus c3wdb 1 7 (some "approved") (some 3)).2 1 7
        (some "rejected") none).2 1
      = stockOf c3wdb 1 :=
  approve_then_reject_restores_stock c3wdb 1 7 1 (some 3)
    ⟨1, 1, some 1, 5, "pending", 7⟩ (by decide) (by decide) (by decide) (by decide)

/-- C5 amended: re-submitting a dispensing record for `(drug_id, today,
category)` with the same quantity `q` computes delta 0 and leaves the drug's
stock unchanged, provided the drug's current stock passes the initial
availability check (`stock ≥ q` — the check compares the full re-submitted
quantity, not the delta) and is non-negative. When the remaining stock is
below `q` the call is instead rejected with `INSUFFICIENT_STOCK` (as the
counterexample shows), so "regardless of how much stock currently remains"
does not hold. -/
theorem resubmit_same_quantity_keeps_stock (db : DB) (uid did : Nat)
    (today : String) (q : Int) (cat notes : Option String)
    (drug : Drug) (ex : DispensingRecord)
    (h1 : db.drugs.find? (fun d => d.id == did && d.createdBy == uid) = some drug)
    (h2 : db.dispensing.find? (fun r => r.drugId == did && r.dispensingDate == today
            && r.category == dispCategory cat) = some ex)
    (h3 : ex.quantityDispensed = q)
    (h4 : ¬ drug.stock < q)
    (h5 : ¬ drug.stock < 0) :
    (recordDailyDispensing db uid today did q none cat notes).1
      = DispenseResult.okUpdated ∧
    stockOf (recordDailyDispensing db uid today did q none cat notes).2 did
      = stockOf db did := by
  have hzero : q - ex.quantityDispensed = 0 := by rw [h3]; exact sub_self q
  have h5x : ¬ drug.stock < q - ex.quantityDispensed := by rw [hzero]; exact h5
  have hrun : recordDailyDispensing db uid today did q none cat notes
      = (DispenseResult.okUpdated,
         deductStock { db with dispensing := db.dispensing.map (fun r =>
            if r.id == ex.id then { r with quantityDispensed := q, notes := notes }
            else r) } did (q - ex.quantityDispensed)) := by
    simp only [recordDailyDispensing, truthyStr, h1, h2]
    rw [if_neg h4, if_neg h5x]
    simp
  constructor
  · rw [hrun]
  · rw [hrun]
    simp only [hzero]
    rw [stockOf_deductStock]
    have hsame : stockOf { db with dispensing := db.dispensing.map (fun r =>
        if r.id == ex.id then { r with quantityDispensed := q, notes := notes }
        else r) } did = stockOf db did := rfl
    rw [hsame]
    cases stockOf db did with
    | none => rfl
    | some v => simp

/-- C5 amended, witness: with stock 10 and an existing record of 4 for
today/OPD, re-submitting quantity 4 succeeds and leaves stock at 10. -/
theorem resubmit_same_quantity_keeps_stock_witness :
    (recordDailyDispensing c5wdb 7 "2026-10-12" 1 4 none none none).1
      = DispenseResult.okUpdated ∧
    stockOf (recordDailyDispensing c5wdb 7 "2026-10-12" 1 4 none none none).2 1
      = stockOf c5wdb 1 :=
  resubmit_same_quantity_keeps_stock c5wdb 7 1 "2026-10-12" 4 none none
    ⟨1, "Cetirizine", 10, 7⟩ ⟨1, 1, 4, "2026-10-12", "OPD", none, 7⟩
    (by decide) (by decide) (by decide) (by decide) (by decide)

theorem filter_length_split {α : Type} (p : α → Bool) (l : List α) :
    (l.filter p).length + (l.filter (fun a => !p a)).length = l.length := by
  induction l with
  | nil => rfl
  | cons a t ih =>
    cases h : p a <;> simp [List.filter_cons, h] <;> omega

theorem approveLoop_count (rows : List PendingRow) :
    ∀ (db : DB) (count : Nat) (ins : List InsufficientItem),
      (approveLoop rows db count ins).1
        = count + (rows.filter (fun r => decide (r.stock ≥ r.quantity))).length := by
  induction rows with
  | nil => intro db count ins; simp [approveLoop]
  | cons r rest ih =>
    intro db count ins
    simp only [approveLoop]
    by_cases h : r.stock ≥ r.quantity
    · rw [if_pos h, ih]
      simp [List.filter_cons, h]
      omega
    · rw [if_neg h, ih]
      simp [List.filter_cons, h]

theorem approveLoop_insuff (rows : List PendingRow) :
    ∀ (db : DB) (count : Nat) (ins : List InsufficientItem),
      (approveLoop rows db count ins).2.1
        = ins ++ (rows.filter (fun r => !decide (r.stock ≥ r.quantity))).map
            (fun r => { drugName := r.drugName, requested := r.quantity,
                        available := r.stock,
                        reason := "Insufficient stock" : InsufficientItem }) := by
  induction rows with
  | nil => intro db count ins; simp [approveLoop]
  | cons r rest ih =>
    intro db count ins
    simp only [approveLoop]
    by_cases h : r.stock ≥ r.quantity
    · rw [if_pos h, ih]
      simp [List.filter_cons, h]
    · rw [if_neg h, ih]
      simp [List.filter_cons, h]

theorem approveLoop_stock (rows : List PendingRow) :
    ∀ (db : DB) (count : Nat) (ins : List InsufficientItem) (d : Nat),
      stockOf (approveLoop rows db count ins).2.2 d
        = (stockOf db d).map (fun v => v -
            ((rows.filter (fun r => decide (r.stock ≥ r.quantity) && r.drugId == d)).map
              (fun r => r.quantity)).sum) := by
  induction rows with
  | nil =>
    intro db count ins d
    simp only [approveLoop, List.filter_nil, List.map_nil, List.sum_nil]
    cases stockOf db d <;> simp
  | cons r rest ih =>
    intro db count ins d
    simp only [approveLoop]
    by_cases h : r.stock ≥ r.quantity
    · rw [if_pos h, ih, stockOf_deductStock, stockOf_setItemStatus]
      have hdec : decide (r.stock ≥ r.quantity) = true := decide_eq_true h
      by_cases hd : r.drugId = d
      · simp only [List.filter_cons, hdec, hd, Bool.true_and, beq_self_eq_true,
          if_true, List.map_cons, List.sum_cons]
        cases stockOf db d with
        | none => rfl
        | some v => simp [hd, sub_sub]
      · have hd2 : d ≠ r.drugId := fun hh => hd hh.symm
        simp only [List.filter_cons, hdec, Bool.true_and]
        cases stockOf db d with
        | none => rfl
        | some v => simp [hd, hd2]
    · rw [if_neg h, ih]
      have hfc : (decide (r.stock ≥ r.quantity) && r.drugId == d) = false := by
        simp [h]
      simp [List.filter_cons, hfc]

/-- C4: for every bulk approve-all call that finds at least one pending item,
the response partitions the locked rows: `totalItems` is the row count, the
approved count is the number of rows whose snapshot stock covers the request,
the insufficient list holds exactly the remaining rows (each once, in order),
so `approvedCount + |insufficientStockItems| = totalItems`; and every drug's
stock decreases by exactly the sum of the quantities of its approved rows —
i.e. stock is decremented for an item iff that item was counted approved. -/
theorem approveAll_partition (db : DB) (oid uid d : Nat)
    (h : pendingRows db oid uid ≠ []) :
    (approveAllItems db oid uid).1.totalItems = some (pendingRows db oid uid).length ∧
    (approveAllItems db oid uid).1.approvedCount
      = ((pendingRows db oid uid).filter (fun r => decide (r.stock ≥ r.quantity))).length ∧
    (approveAllItems db oid uid).1.insufficientStockItems
      = ((pendingRows db oid uid).filter (fun r => !decide (r.stock ≥ r.quantity))).map
          (fun r => { drugName := r.drugName, requested := r.quantity,
                      available := r.stock,
                      reason := "Insufficient stock" : InsufficientItem }) ∧
    (approveAllItems db oid uid).1.approvedCount
        + (approveAllItems db oid uid).1.insufficientStockItems.length
      = (pendingRows db oid uid).length ∧
    stockOf (approveAllItems db oid uid).2 d
      = (stockOf db d).map (fun v => v -
          (((pendingRows db oid uid).filter
              (fun r => decide (r.stock ≥ r.quantity) && r.drugId == d)).map
            (fun r => r.quantity)).sum) := by
  have hne : (pendingRows db oid uid).isEmpty = false := by
    cases hr : pendingRows db oid uid
    · exact absurd hr h
    · rfl
  simp only [approveAllItems, hne, Bool.false_eq_true, if_false]
  refine ⟨trivial, ?_, ?_, ?_, ?_⟩
  · rw [approveLoop_count]
    exact Nat.zero_add _
  · rw [approveLoop_insuff]
    rfl
  · rw [approveLoop_count, approveLoop_insuff]
    simp only [List.nil_append, List.length_map, Nat.zero_add]
    exact filter_length_split _ _
  · exact approveLoop_stock _ _ _ _ _

/-- C4 witness: two pending items (one covered by stock, one not): the
response reports totalItems 2 = approvedCount 1 + one insufficient entry,
and drug 1's stock drops by exactly its approved quantity 10. -/
theorem approveAll_partition_witness :
    (approveAllItems c4db 1 7).1.totalItems = some (pendingRows c4db 1 7).length ∧
    (approveAllItems c4db 1 7).1.approvedCount
      = ((pendingRows c4db 1 7).filter (fun r => decide (r.stock ≥ r.quantity))).length ∧
    (approveAllItems c4db 1 7).1.insufficientStockItems
      = ((pendingRows c4db 1 7).filter (fun r => !decide (r.stock ≥ r.quantity))).map
          (fun r => { drugName := r.drugName, requested := r.quantity,
                      available := r.stock,
                      reason := "Insufficient stock" : InsufficientItem }) ∧
    (approveAllItems c4db 1 7).1.approvedCount
        + (approveAllItems c4db 1 7).1.insufficientStockItems.length
      = (pendingRows c4db 1 7).length ∧
    stockOf (approveAllItems c4db 1 7).2 1
      = (stockOf c4db 1).map (fun v => v -
          (((pendingRows c4db 1 7).filter
              (fun r => decide (r.stock ≥ r.quantity) && r.drugId == 1)).map
            (fun r => r.quantity)).sum) :=
  approveAll_partition c4db 1 7 1 (by decide)
